import Mathlib

/-!
# Verification of the RivetKit actor-model specification

This development embeds, in Lean 4, the actor examples shipped with the
RivetKit repository (the `counter` actor of the Node.js quickstart, the
`rateLimiter` actor of the tenant example, the `user` actor of the actions
guide) together with the minimal runtime core that the specification
reconstructs from those examples (action dispatch, error propagation,
connection registry, actor instance manager, per-instance serialization).

Pure handlers are translated as Lean functions; the actor-local database of
the rate limiter becomes explicit state passing; the concurrent dispatcher
becomes a small-step transition relation.
-/

/-! ## The counter actor (src/docs/actors/quickstart-backend.mdx)

```ts
export const counter = actor({
  state: { count: 0 },
  actions: {
    increment: (c, amount: number = 1) => {
      c.state.count += amount;
      c.broadcast("countChanged", c.state.count);
      return c.state.count;
    },
    getCount: (c) => c.state.count,
  },
});
```
-/

/-- The counter actor's state: `{ count: 0 }`. -/
structure CounterState where
  count : Int
  deriving Repr, DecidableEq

/-- An event as broadcast by a handler: `{name, payload}`.  Payloads in the
counter example are the integer count. -/
structure Event where
  name : String
  payload : Int
  deriving Repr, DecidableEq

/-- The action context seen by the counter handler: the mutable state plus
the log of `c.broadcast` calls made during the turn, in call order. -/
structure CounterCtx where
  state : CounterState
  broadcasts : List Event
  deriving Repr, DecidableEq

/-- The `increment` action of the counter actor, translated from the source.
`amount` is optional because the TypeScript parameter has default value `1`
(`amount: number = 1`); `none` models a call with the argument omitted. -/
def increment (c : CounterCtx) (amount : Option Int) : CounterCtx × Int :=
  let amt := amount.getD 1
  let newCount := c.state.count + amt
  ({ state := { count := newCount },
     broadcasts := c.broadcasts ++ [{ name := "countChanged", payload := newCount }] },
   newCount)

/-- The `getCount` action of the counter actor. -/
def getCount (c : CounterCtx) : Int :=
  c.state.count

/-- The initial counter state declared in the source: `state: { count: 0 }`. -/
def counterInitState : CounterState := { count := 0 }

/-! ## The rate limiter actor (src/examples/tenant/src/frontend/index.html)

The `rateLimiter` actor stores a single `limiters` row `{count, resetAt}` in
its actor-local database; we embed the database content as an
`Option LimiterRow` threaded through the action. -/

/-- The single `limiters` row: request count and window expiry (ms epoch). -/
structure LimiterRow where
  count : Nat
  resetAt : Nat
  deriving Repr, DecidableEq

/-- The value returned by `checkLimit`. -/
structure CheckLimitResult where
  allowed : Bool
  remaining : Int
  resetsIn : Int
  deriving Repr, DecidableEq

/-- JavaScript `Math.round` on the nonnegative quotient `a / 1000`
(round half up), as used in `resetsIn: Math.round((limiterState.resetAt - now) / 1000)`. -/
def roundDiv1000 (a : Nat) : Nat :=
  (a + 500) / 1000

/-- The `checkLimit` action of the rate limiter, translated from the source:
  * no row: insert `{count: 1, resetAt: now + 60000}`, return
    `{allowed: true, remaining: 4, resetsIn: 60}`;
  * `now > resetAt`: reset the row to `{count: 1, resetAt: now + 60000}`,
    return `{allowed: true, remaining: 4, resetsIn: 60}`;
  * otherwise `allowed := count < 5`; if allowed the stored count is
    incremented; return `{allowed, remaining: 5 - (allowed ? count+1 : count),
    resetsIn: round((resetAt - now)/1000)}`. -/
def checkLimit (db : Option LimiterRow) (now : Nat) :
    Option LimiterRow × CheckLimitResult :=
  match db with
  | none =>
      (some { count := 1, resetAt := now + 60000 },
       { allowed := true, remaining := 4, resetsIn := 60 })
  | some limiterState =>
      if now > limiterState.resetAt then
        (some { count := 1, resetAt := now + 60000 },
         { allowed := true, remaining := 4, resetsIn := 60 })
      else
        let allowed := limiterState.count < 5
        let db' := if allowed
          then some { limiterState with count := limiterState.count + 1 }
          else some limiterState
        (db',
         { allowed := allowed,
           remaining :=
             (5 : Int) - (if allowed then limiterState.count + 1 else limiterState.count),
           resetsIn := (roundDiv1000 (limiterState.resetAt - now) : Int) })

/-- Run a sequence of `checkLimit` calls at the given times, threading the
database row and collecting the results in call order. -/
def runCheckLimit : Option LimiterRow → List Nat →
    Option LimiterRow × List CheckLimitResult
  | db, [] => (db, [])
  | db, t :: ts =>
      ((runCheckLimit (checkLimit db t).1 ts).1,
       (checkLimit db t).2 :: (runCheckLimit (checkLimit db t).1 ts).2)

/-! ## Errors and action dispatch (src/docs/actors/actions.mdx; spec sections 4.2, 6, 7)

The error *taxonomy* is shown in the source docs (`UserError` with
`message`, optional `code`, optional `meta`; all other errors surface
`internal_error`), but the dispatcher that propagates them is not part of
the excerpt, so its propagation is modelled from the spec. -/

/-- A `UserError` as thrown by an action handler: a human-readable message,
an optional machine-readable code and an optional metadata object.
Metadata objects are modelled as finite association lists of integer
fields (enough for `{maxLength: 32}`). -/
structure UserError where
  message : String
  code : Option String
  meta : Option (List (String × Int))
  deriving Repr, DecidableEq

/-- A non-user (internal) failure inside handler execution or
infrastructure: its detail (message, stack, captured state) is operator
facing and must never reach the caller. -/
structure InternalFailure where
  detail : String
  stack : String
  deriving Repr, DecidableEq

/-- The error shape surfaced to a caller: `message`, optional `code`,
optional `metadata` (spec section 6, "Error surface to caller"). -/
structure CallerError where
  message : String
  code : Option String
  metadata : Option (List (String × Int))
  deriving Repr, DecidableEq

/-- The outcome of running one action handler to the end of its turn:
the handler either returns a value, throws a `UserError`, or fails
internally.  In every case the outcome carries the live state object as it
stands when the turn ends — mutations are applied in place as they happen. -/
inductive HandlerOutcome (σ α : Type) where
  | ok : σ → α → HandlerOutcome σ α
  | userError : σ → UserError → HandlerOutcome σ α
  | internalError : σ → InternalFailure → HandlerOutcome σ α
  deriving Repr, DecidableEq

/-- Modelled from the spec: the Action Dispatcher's result conversion
(spec 4.2, 7).  A thrown `UserError` passes through verbatim with its
author-supplied message, code and metadata; any internal failure is
redacted to the fixed code `internal_error` with no metadata and none of
the original error's detail. -/
def toCallerError : UserError ⊕ InternalFailure → CallerError
  | .inl e => { message := e.message, code := e.code, metadata := e.meta }
  | .inr _ => { message := "Internal error", code := some "internal_error", metadata := none }

/-- Modelled from the spec: dispatching one action call against the current
state.  The handler runs for one turn; the state it leaves behind is
persisted whether the turn ended in success or in an error (mutations are
in place, there is no rollback), and the caller observes either the result
value or exactly one structured error. -/
def dispatch {σ α : Type} (handler : σ → HandlerOutcome σ α) (s : σ) :
    σ × Except CallerError α :=
  match handler s with
  | .ok s' a => (s', .ok a)
  | .userError s' e => (s', .error (toCallerError (.inl e)))
  | .internalError s' f => (s', .error (toCallerError (.inr f)))

/-! ### The `user` actor (src/docs/actors/actions.mdx)

```ts
registerUser: (c, username) => {
  if (username.length > 32) {
    throw new UserError("Invalid username", {
      code: "invalid_username",
      meta: { maxLength: 32 }
    });
  }
  // Rest of the user registration logic...
}
```
The state is `{ users: [] }`; the success branch is elided in the source
("Rest of the user registration logic..."), so it is modelled as returning
with the state unchanged. -/

/-- The `registerUser` action handler of the `user` actor. -/
def registerUser (s : List String) (username : String) :
    HandlerOutcome (List String) Unit :=
  if username.length > 32 then
    .userError s
      { message := "Invalid username",
        code := some "invalid_username",
        meta := some [("maxLength", 32)] }
  else
    .ok s ()

/-! ## Connection registry and the counter runtime (spec section 4.4)

The Connection Registry is not part of the excerpt; its broadcast fan-out is
modelled from the spec: an event is delivered to every currently subscribed
connection, in registration order, and a connection only receives events
broadcast while it is subscribed. -/

/-- Modelled from the spec: a subscribing client connection owning a
delivery channel, recorded here as the list of events delivered to it, in
delivery order. -/
structure Conn where
  id : Nat
  received : List Event
  deriving Repr, DecidableEq

/-- Modelled from the spec: `broadcast` delivers one event to every
currently subscribed connection, in registration order. -/
def broadcastEvent (conns : List Conn) (e : Event) : List Conn :=
  conns.map (fun c => { c with received := c.received ++ [e] })

/-- Deliver a turn's broadcasts, in broadcast order, to the subscribed
connections. -/
def deliverAll (conns : List Conn) (es : List Event) : List Conn :=
  es.foldl broadcastEvent conns

/-- One live counter actor instance: its state plus the registry's
subscriber list for it, in registration order. -/
structure CounterSys where
  state : CounterState
  conns : List Conn
  deriving Repr, DecidableEq

/-- Dispatch one `increment` call on a live counter instance: run the
handler for its turn, persist its state, and fan its broadcasts out to the
connections subscribed at the time of the call. -/
def counterCall (sys : CounterSys) (amount : Option Int) : CounterSys × Int :=
  let (ctx', ret) := increment { state := sys.state, broadcasts := [] } amount
  ({ state := ctx'.state, conns := deliverAll sys.conns ctx'.broadcasts }, ret)

/-! ## Actor Instance Manager (spec section 4.1)

Modelled from the spec: `resolve(actorType, key) -> handle` creates an
instance lazily on first use and returns the existing instance's handle on
every later call — get-or-create, never a duplicate instance per key. -/

/-- One tag of an actor key: a string or a number. -/
inductive Tag where
  | str : String → Tag
  | num : Int → Tag
  deriving Repr, DecidableEq

/-- An actor key: an ordered sequence of string/number tags. -/
abbrev ActorKey := List Tag

/-- Modelled from the spec: the Actor Instance Manager's live set — the
registered instances, as an association of keys to instance identifiers,
plus the next fresh identifier. -/
structure Manager where
  live : List (ActorKey × Nat)
  nextId : Nat
  deriving Repr, DecidableEq

/-- Look a key up in the live set. -/
def lookupKey : List (ActorKey × Nat) → ActorKey → Option Nat
  | [], _ => none
  | (k', id) :: rest, k => if k' = k then some id else lookupKey rest k

/-- Modelled from the spec: `resolve` — if an instance is registered for
the key, return a handle to it and leave the manager unchanged; otherwise
create a fresh instance, register it under the key, and return its handle. -/
def resolve (m : Manager) (k : ActorKey) : Manager × Nat :=
  match lookupKey m.live k with
  | some id => (m, id)
  | none => ({ live := (k, m.nextId) :: m.live, nextId := m.nextId + 1 }, m.nextId)

/-- The manager before any instance has been created. -/
def emptyManager : Manager := { live := [], nextId := 0 }

/-- Run a sequence of `resolve` calls (any interleaving of
`getOrCreate` invocations, each atomic), collecting the returned
key/handle pairs in call order. -/
def runResolves : Manager → List ActorKey → Manager × List (ActorKey × Nat)
  | m, [] => (m, [])
  | m, k :: ks =>
      ((runResolves (resolve m k).1 ks).1,
       (k, (resolve m k).2) :: (runResolves (resolve m k).1 ks).2)

/-- How many instances the live set holds for a key. -/
def countKey (live : List (ActorKey × Nat)) (k : ActorKey) : Nat :=
  (live.filter (fun p => p.1 = k)).length

/-! ## Per-instance serialization: the concurrent dispatcher (spec sections 3, 4.2, 5)

Modelled from the spec: each instance owns a FIFO queue of accepted calls;
a call may start only when no call is executing on that instance, and at
completion its effect is applied to the instance's state and persisted.
Different instances interleave freely.  A call's effect on the state is
abbreviated to a function on the state (the per-turn context of section
4.2 is orthogonal to the serialization argument). -/

/-- The state-transforming effect of one accepted action call. -/
abbrev ActionFn (σ : Type) := σ → σ

/-- One live instance as the dispatcher sees it: current persisted state,
the accepted-but-not-started calls in acceptance (FIFO) order, the calls
currently executing, and the completed calls in completion order. -/
structure Inst (σ : Type) where
  state : σ
  pending : List (ActionFn σ)
  running : List (ActionFn σ)
  done : List (ActionFn σ)

/-- The whole system: instances indexed by instance number. -/
abbrev Sys (σ : Type) := Nat → Inst σ

/-- Modelled from the spec: one scheduler step.  `start` begins the head of
an instance's queue, allowed only when nothing is executing on that
instance; `finish` completes an executing call, applying its effect to the
state (mutations become visible only at completion) and recording it as
done.  Steps on different instances interleave arbitrarily. -/
inductive SysStep {σ : Type} : Sys σ → Sys σ → Prop where
  | start {s t : Sys σ} (i : Nat) (a : ActionFn σ) (rest : List (ActionFn σ))
      (hq : (s i).pending = a :: rest)
      (hr : (s i).running = [])
      (ht : t = Function.update s i
        { s i with pending := rest, running := [a] }) :
      SysStep s t
  | finish {s t : Sys σ} (i : Nat) (a : ActionFn σ) (rs : List (ActionFn σ))
      (hr : (s i).running = a :: rs)
      (ht : t = Function.update s i
        { state := a ((s i).state), pending := (s i).pending,
          running := rs, done := (s i).done ++ [a] }) :
      SysStep s t

/-- The system at the moment all calls have been accepted and none has
started: instance `i` has initial state `init i` and queue `accepted i`. -/
def initSys {σ : Type} (init : Nat → σ) (accepted : Nat → List (ActionFn σ)) : Sys σ :=
  fun i => { state := init i, pending := accepted i, running := [], done := [] }

/-- The states the dispatcher can reach from the initial system. -/
def Reachable {σ : Type} (init : Nat → σ) (accepted : Nat → List (ActionFn σ))
    (s : Sys σ) : Prop :=
  Relation.ReflTransGen SysStep (initSys init accepted) s

/-- The single-threaded reference evaluation of the spec: apply the calls
one at a time, in the order they were issued. -/
def seqEval {σ : Type} (s0 : σ) (calls : List (ActionFn σ)) : σ :=
  calls.foldl (fun s a => a s) s0

/-! ## Theorems -/

/-- The dispatcher's inductive invariant: per instance, at most one call is
executing, the completed/executing/queued calls in order are exactly the
accepted calls in acceptance order, and the persisted state is the
sequential evaluation of the completed prefix. -/
def SysInv {σ : Type} (init : Nat → σ) (accepted : Nat → List (ActionFn σ))
    (s : Sys σ) : Prop :=
  ∀ i, (s i).running.length ≤ 1 ∧
    (s i).done ++ ((s i).running ++ (s i).pending) = accepted i ∧
    (s i).state = seqEval (init i) ((s i).done)

lemma seqEval_concat {σ : Type} (s0 : σ) (l : List (ActionFn σ)) (a : ActionFn σ) :
    seqEval s0 (l ++ [a]) = a (seqEval s0 l) := by
  simp [seqEval, List.foldl_append]

lemma sysInv_init {σ : Type} (init : Nat → σ) (accepted : Nat → List (ActionFn σ)) :
    SysInv init accepted (initSys init accepted) := by
  intro i
  exact ⟨by simp [initSys], by simp [initSys], by simp [initSys, seqEval]⟩

lemma sysInv_step {σ : Type} {init : Nat → σ} {accepted : Nat → List (ActionFn σ)}
    {s t : Sys σ} (h : SysInv init accepted s) (hs : SysStep s t) :
    SysInv init accepted t := by
  cases hs with
  | start i a rest hq hr ht =>
      subst ht
      intro j
      by_cases hj : j = i
      · subst hj
        obtain ⟨h1, h2, h3⟩ := h j
        rw [hq, hr] at h2
        refine ⟨?_, ?_, ?_⟩
        · simp [Function.update_same]
        · simpa [Function.update_same] using h2
        · simpa [Function.update_same] using h3
      · simpa [Function.update_noteq hj] using h j
  | finish i a rs hr ht =>
      subst ht
      intro j
      by_cases hj : j = i
      · subst hj
        obtain ⟨h1, h2, h3⟩ := h j
        rw [hr] at h1 h2
        refine ⟨?_, ?_, ?_⟩
        · simp only [Function.update_same]
          simp only [List.length_cons] at h1
          omega
        · simp only [Function.update_same]
          rw [← h2]
          simp
        · simp only [Function.update_same]
          rw [seqEval_concat, h3]
      · simpa [Function.update_noteq hj] using h j

lemma sysInv_reachable {σ : Type} {init : Nat → σ}
    {accepted : Nat → List (ActionFn σ)} {s : Sys σ}
    (h : Reachable init accepted s) : SysInv init accepted s := by
  induction h with
  | refl => exact sysInv_init init accepted
  | tail _ hstep ih => exact sysInv_step ih hstep

/-- C1: the concurrent dispatcher refines the single-threaded reference
evaluation — in every reachable system state, each instance's persisted
state equals the sequential evaluation of exactly the calls completed so
far, and those completed calls form a prefix of the calls accepted on that
instance, in the order they were issued. -/
theorem C1_dispatcher_refines_sequential {σ : Type} (init : Nat → σ)
    (accepted : Nat → List (ActionFn σ)) (s : Sys σ)
    (h : Reachable init accepted s) (i : Nat) :
    (s i).state = seqEval (init i) ((s i).done) ∧
    ∃ rest, (s i).done ++ rest = accepted i := by
  obtain ⟨_, h2, h3⟩ := sysInv_reachable h i
  exact ⟨h3, (s i).running ++ (s i).pending, h2⟩

/-- C6: in every reachable state, at most one call is executing against a
given instance's state (mutual exclusion per instance), and the completed,
executing and queued calls of an instance, concatenated in that order,
are exactly the accepted calls in acceptance order — so calls complete in
the FIFO order in which they were accepted. -/
theorem C6_mutual_exclusion_fifo {σ : Type} (init : Nat → σ)
    (accepted : Nat → List (ActionFn σ)) (s : Sys σ)
    (h : Reachable init accepted s) (i : Nat) :
    (s i).running.length ≤ 1 ∧
    (s i).done ++ ((s i).running ++ (s i).pending) = accepted i := by
  obtain ⟨h1, h2, _⟩ := sysInv_reachable h i
  exact ⟨h1, h2⟩

/-! ### A concrete dispatcher run (witness material for C1 and C6) -/

/-- Witness system: instance 0 accepts two calls, add 5 then add 3. -/
def acceptedW : Nat → List (ActionFn Int) :=
  fun i => if i = 0 then [fun s => s + 5, fun s => s + 3] else []

/-- Witness initial states: every instance starts at 0. -/
def initW : Nat → Int := fun _ => 0

/-- The witness trace: accept both calls, then start/finish each in turn. -/
def sysW0 : Sys Int := initSys initW acceptedW

def sysW1 : Sys Int :=
  Function.update sysW0 0
    { sysW0 0 with pending := [fun s => s + 3], running := [fun s => s + 5] }

def sysW2 : Sys Int :=
  Function.update sysW1 0
    { state := (fun s => s + 5) ((sysW1 0).state), pending := (sysW1 0).pending,
      running := [], done := (sysW1 0).done ++ [fun s => s + 5] }

def sysW3 : Sys Int :=
  Function.update sysW2 0
    { sysW2 0 with pending := [], running := [fun s => s + 3] }

def sysW4 : Sys Int :=
  Function.update sysW3 0
    { state := (fun s => s + 3) ((sysW3 0).state), pending := (sysW3 0).pending,
      running := [], done := (sysW3 0).done ++ [fun s => s + 3] }

lemma stepW01 : SysStep sysW0 sysW1 :=
  .start 0 (fun s => s + 5) [fun s => s + 3] rfl rfl rfl

lemma stepW12 : SysStep sysW1 sysW2 :=
  .finish 0 (fun s => s + 5) [] rfl rfl

lemma stepW23 : SysStep sysW2 sysW3 :=
  .start 0 (fun s => s + 3) [] rfl rfl rfl

lemma stepW34 : SysStep sysW3 sysW4 :=
  .finish 0 (fun s => s + 3) [] rfl rfl

lemma reachW : Reachable initW acceptedW sysW4 :=
  Relation.ReflTransGen.tail
    (Relation.ReflTransGen.tail
      (Relation.ReflTransGen.tail
        (Relation.ReflTransGen.tail Relation.ReflTransGen.refl stepW01)
        stepW12)
      stepW23)
    stepW34

/-- Witness for C1: on the concrete run that completes both accepted calls
of instance 0, the persisted state equals the sequential evaluation of the
completed calls (concretely 8), and the completed calls form a prefix of
the accepted calls. -/
theorem C1_dispatcher_refines_sequential_witness :
    ((sysW4 0).state = seqEval (initW 0) ((sysW4 0).done) ∧
      ∃ rest, (sysW4 0).done ++ rest = acceptedW 0) ∧
    (sysW4 0).state = 8 :=
  ⟨C1_dispatcher_refines_sequential initW acceptedW sysW4 reachW 0, by decide⟩

/-- Witness for C6: on the same concrete run, mutual exclusion and the FIFO
decomposition hold at instance 0, and concretely nothing is running and
both calls are done in acceptance order. -/
theorem C6_mutual_exclusion_fifo_witness :
    ((sysW4 0).running.length ≤ 1 ∧
      (sysW4 0).done ++ ((sysW4 0).running ++ (sysW4 0).pending) = acceptedW 0) ∧
    (sysW4 0).running = [] ∧ (sysW4 0).pending = [] :=
  ⟨C6_mutual_exclusion_fifo initW acceptedW sysW4 reachW 0, rfl, rfl⟩

/-! ### Instance manager lemmas and C7 -/

lemma lookupKey_resolve_self (m : Manager) (k : ActorKey) :
    lookupKey (resolve m k).1.live k = some (resolve m k).2 := by
  unfold resolve
  cases h : lookupKey m.live k with
  | some id => simp [h]
  | none => simp [h, lookupKey]

lemma lookupKey_resolve_mono (m : Manager) (k k' : ActorKey) (id : Nat)
    (h : lookupKey m.live k = some id) :
    lookupKey (resolve m k').1.live k = some id := by
  unfold resolve
  cases h' : lookupKey m.live k' with
  | some id' => simpa using h
  | none =>
      by_cases hk : k' = k
      · subst hk
        rw [h] at h'
        cases h'
      · simpa [lookupKey, hk] using h

lemma lookupKey_runResolves_mono (ks : List ActorKey) (m : Manager)
    (k : ActorKey) (id : Nat) (h : lookupKey m.live k = some id) :
    lookupKey (runResolves m ks).1.live k = some id := by
  induction ks generalizing m with
  | nil => simpa [runResolves] using h
  | cons k' ks ih =>
      simp only [runResolves]
      exact ih _ (lookupKey_resolve_mono m k k' id h)

lemma runResolves_results (ks : List ActorKey) (m : Manager) :
    ∀ p ∈ (runResolves m ks).2,
      lookupKey (runResolves m ks).1.live p.1 = some p.2 := by
  induction ks generalizing m with
  | nil => simp [runResolves]
  | cons k ks ih =>
      intro p hp
      simp only [runResolves, List.mem_cons] at hp
      simp only [runResolves]
      rcases hp with hp | hp
      · subst hp
        exact lookupKey_runResolves_mono ks _ k _ (lookupKey_resolve_self m k)
      · exact ih _ p hp

lemma countKey_eq_zero_of_lookup_none (live : List (ActorKey × Nat))
    (k : ActorKey) (h : lookupKey live k = none) : countKey live k = 0 := by
  induction live with
  | nil => simp [countKey]
  | cons p rest ih =>
      obtain ⟨k', id⟩ := p
      by_cases hk : k' = k
      · simp [lookupKey, hk] at h
      · simp only [lookupKey, hk, if_false, if_neg (fun hc => hk hc)] at h
        simpa [countKey, hk] using ih h

lemma countKey_cons (k' : ActorKey) (n : Nat) (live : List (ActorKey × Nat))
    (k : ActorKey) :
    countKey ((k', n) :: live) k = (if k' = k then 1 else 0) + countKey live k := by
  by_cases hk : k' = k
  · simp [countKey, hk]
    omega
  · simp [countKey, hk]

lemma countKey_resolve_le (m : Manager) (k k' : ActorKey)
    (h : countKey m.live k ≤ 1) :
    countKey (resolve m k').1.live k ≤ 1 := by
  unfold resolve
  cases hl : lookupKey m.live k' with
  | some id => simpa using h
  | none =>
      by_cases hk : k' = k
      · subst hk
        have h0 := countKey_eq_zero_of_lookup_none _ _ hl
        simp [countKey_cons, h0]
      · simpa [countKey, hk] using h

lemma countKey_runResolves_le (ks : List ActorKey) (m : Manager)
    (k : ActorKey) (h : countKey m.live k ≤ 1) :
    countKey (runResolves m ks).1.live k ≤ 1 := by
  induction ks generalizing m with
  | nil => simpa [runResolves] using h
  | cons k' ks ih =>
      simp only [runResolves]
      exact ih _ (countKey_resolve_le m k k' h)

/-- C7: `getOrCreate` is idempotent per key — when an instance is already
registered for the key, `resolve` returns a handle to that same instance
and changes nothing; and for any interleaving of `getOrCreate` invocations
starting from the empty manager, the live set never holds two instances
for one key, and every handle returned for a given key names the same
single underlying instance. -/
theorem C7_getOrCreate_idempotent (ks : List ActorKey) (k : ActorKey)
    (m : Manager) (id : Nat) (hid : lookupKey m.live k = some id) :
    resolve m k = (m, id) ∧
    countKey (runResolves emptyManager ks).1.live k ≤ 1 ∧
    ∀ id1 id2, (k, id1) ∈ (runResolves emptyManager ks).2 →
      (k, id2) ∈ (runResolves emptyManager ks).2 → id1 = id2 := by
  refine ⟨?_, ?_, ?_⟩
  · unfold resolve
    rw [hid]
  · exact countKey_runResolves_le ks emptyManager k (by simp [emptyManager, countKey])
  · intro id1 id2 h1 h2
    have e1 := runResolves_results ks emptyManager (k, id1) h1
    have e2 := runResolves_results ks emptyManager (k, id2) h2
    rw [e1] at e2
    exact Option.some.inj e2

/-- Witness for C7: a manager holding instance 0 for key `["a"]` resolves
that key to itself unchanged; and the concrete run
`getOrCreate ["a"]; getOrCreate ["a"]; getOrCreate ["b"]; getOrCreate ["a"]`
from the empty manager returns handle 0 for every `["a"]` call and handle 1
for the `["b"]` call. -/
theorem C7_getOrCreate_idempotent_witness :
    (resolve { live := [([Tag.str "a"], 0)], nextId := 1 } [Tag.str "a"] =
        ({ live := [([Tag.str "a"], 0)], nextId := 1 }, 0) ∧
      countKey (runResolves emptyManager
        [[Tag.str "a"], [Tag.str "a"], [Tag.str "b"], [Tag.str "a"]]).1.live
        [Tag.str "a"] ≤ 1 ∧
      ∀ id1 id2,
        ([Tag.str "a"], id1) ∈ (runResolves emptyManager
          [[Tag.str "a"], [Tag.str "a"], [Tag.str "b"], [Tag.str "a"]]).2 →
        ([Tag.str "a"], id2) ∈ (runResolves emptyManager
          [[Tag.str "a"], [Tag.str "a"], [Tag.str "b"], [Tag.str "a"]]).2 →
        id1 = id2) ∧
    (runResolves emptyManager
        [[Tag.str "a"], [Tag.str "a"], [Tag.str "b"], [Tag.str "a"]]).2 =
      [([Tag.str "a"], 0), ([Tag.str "a"], 0), ([Tag.str "b"], 1), ([Tag.str "a"], 0)] :=
  ⟨C7_getOrCreate_idempotent _ _ _ 0 (by decide), by decide⟩

/-! ### Counter scenario theorems (C2, C9) -/

/-- A counter instance at its initial state with one connection subscribed
before any call is made. -/
def counterSysStart : CounterSys :=
  { state := counterInitState, conns := [{ id := 0, received := [] }] }

/-- The two `countChanged` events of the quickstart scenario. -/
def countChangedEvents : List Event :=
  [{ name := "countChanged", payload := 5 }, { name := "countChanged", payload := 8 }]

/-- C2: on the counter actor starting at `{count: 0}` with one connection
subscribed before any call, `increment(5)` then `increment(3)` return `5`
then `8`, and the connection receives exactly two `countChanged` events,
with payloads `5` and `8`, in that order. -/
theorem C2_counter_scenario :
    (counterCall counterSysStart (some 5)).2 = 5 ∧
    (counterCall (counterCall counterSysStart (some 5)).1 (some 3)).2 = 8 ∧
    (counterCall (counterCall counterSysStart (some 5)).1 (some 3)).1.conns =
      [{ id := 0, received := countChangedEvents }] := by
  decide

/-- C9: calling `increment` with the `amount` argument omitted behaves
exactly as `increment(1)` — the count increases by 1, `countChanged` is
broadcast with the new count, and the new count is returned. -/
theorem C9_increment_defaults_to_one (c : CounterCtx) :
    increment c none = increment c (some 1) ∧
    (increment c none).2 = c.state.count + 1 ∧
    (increment c none).1.state.count = c.state.count + 1 ∧
    (increment c none).1.broadcasts =
      c.broadcasts ++ [{ name := "countChanged", payload := c.state.count + 1 }] := by
  refine ⟨rfl, rfl, rfl, rfl⟩

/-! ### Error propagation theorems (C4, C5, C8) -/

/-- C4: a `UserError` thrown by an action handler passes through to the
caller unmodified — the caller observes a failed result whose message,
code and metadata equal exactly the thrown message, code and metadata. -/
theorem C4_user_error_passthrough {σ α : Type}
    (handler : σ → HandlerOutcome σ α) (s s' : σ) (e : UserError)
    (h : handler s = .userError s' e) :
    (dispatch handler s).2 =
      .error { message := e.message, code := e.code, metadata := e.meta } := by
  simp [dispatch, h, toCallerError]

/-- Witness for C4: for the `registerUser` handler of the `user` actor
called with a 44-character username, the caller observes exactly
`message = "Invalid username"`, `code = "invalid_username"` and
`metadata = {maxLength: 32}`. -/
theorem C4_user_error_passthrough_witness :
    (dispatch (fun s => registerUser s "extremely_long_username_that_exceeds_limit")
        ([] : List String)).2 =
      .error { message := "Invalid username", code := some "invalid_username",
               metadata := some [("maxLength", 32)] } :=
  C4_user_error_passthrough _ [] []
    { message := "Invalid username", code := some "invalid_username",
      meta := some [("maxLength", 32)] }
    (by decide)

/-- C5: every non-user error raised during action dispatch surfaces to the
caller as a fixed redacted error with code `internal_error` and no
metadata; the result is a constant independent of the original failure, so
none of its detail (message, stack, state) can appear in it. -/
theorem C5_internal_error_redacted {σ α : Type}
    (handler : σ → HandlerOutcome σ α) (s s' : σ) (f : InternalFailure)
    (h : handler s = .internalError s' f) :
    (dispatch handler s).2 =
      .error { message := "Internal error", code := some "internal_error",
               metadata := none } := by
  simp [dispatch, h, toCallerError]

/-- Witness for C5: a handler failing internally with a detailed message
and stack trace yields the fixed redacted error, in which neither the
detail nor the stack occurs. -/
theorem C5_internal_error_redacted_witness :
    (dispatch (fun n => (HandlerOutcome.internalError (n + 7)
        { detail := "TypeError: secret.password is undefined",
          stack := "at registry.ts:12" } : HandlerOutcome Int Unit)) (0 : Int)).2 =
      .error { message := "Internal error", code := some "internal_error",
               metadata := none } :=
  C5_internal_error_redacted _ 0 (0 + 7)
    { detail := "TypeError: secret.password is undefined",
      stack := "at registry.ts:12" }
    (by decide)

/-- C8: when a handler mutates the state and then throws a user error, the
mutations are persisted — the persisted state after the call is the state
the handler left behind at the throw, not a rollback to the pre-call
state, while the call itself fails with the user error result. -/
theorem C8_mutation_before_user_error_persisted {σ α : Type}
    (handler : σ → HandlerOutcome σ α) (s s' : σ) (e : UserError)
    (h : handler s = .userError s' e) :
    (dispatch handler s).1 = s' ∧
    (dispatch handler s).2 =
      .error { message := e.message, code := e.code, metadata := e.meta } := by
  constructor
  · simp [dispatch, h]
  · simp [dispatch, h, toCallerError]

/-- Witness for C8: a handler that increments the integer state from 0 to 1
and then throws leaves persisted state 1 — the pre-throw mutation survives
even though the call failed. -/
theorem C8_mutation_before_user_error_persisted_witness :
    (dispatch (fun n => (HandlerOutcome.userError (n + 1)
        { message := "boom", code := none, meta := none } :
        HandlerOutcome Int Unit)) (0 : Int)).1 = 0 + 1 ∧
    (dispatch (fun n => (HandlerOutcome.userError (n + 1)
        { message := "boom", code := none, meta := none } :
        HandlerOutcome Int Unit)) (0 : Int)).2 =
      .error { message := "boom", code := none, metadata := none } :=
  C8_mutation_before_user_error_persisted _ 0 (0 + 1)
    { message := "boom", code := none, meta := none } (by decide)

/-! ### Rate limiter theorems (C3, C10) -/

/-- C10: whenever the current time is strictly past the stored `resetAt`,
`checkLimit` resets the window regardless of the previous count — the
stored row becomes `{count: 1, resetAt: now + 60000}` and the call returns
exactly `{allowed: true, remaining: 4, resetsIn: 60}`. -/
theorem C10_checkLimit_reset_on_expiry (row : LimiterRow) (now : Nat)
    (h : now > row.resetAt) :
    checkLimit (some row) now =
      (some { count := 1, resetAt := now + 60000 },
       { allowed := true, remaining := 4, resetsIn := 60 }) := by
  simp [checkLimit, h]

/-- Witness for C10: a full window (`count = 5`) whose `resetAt = 10` is
reset by a call at time 11. -/
theorem C10_checkLimit_reset_on_expiry_witness :
    checkLimit (some { count := 5, resetAt := 10 }) 11 =
      (some { count := 1, resetAt := 11 + 60000 },
       { allowed := true, remaining := 4, resetsIn := 60 }) :=
  C10_checkLimit_reset_on_expiry { count := 5, resetAt := 10 } 11 (by decide)

/-- C3: starting from no limiter record, each of the first 5 `checkLimit`
calls in the same 1-minute window returns `allowed: true` with strictly
decreasing `remaining` (4, 3, 2, 1, 0), and the 6th call within that
window returns `allowed: false`. -/
theorem C3_rate_limiter_five_then_blocked (t1 t2 t3 t4 t5 t6 : Nat)
    (h2 : t2 ≤ t1 + 60000) (h3 : t3 ≤ t1 + 60000) (h4 : t4 ≤ t1 + 60000)
    (h5 : t5 ≤ t1 + 60000) (h6 : t6 ≤ t1 + 60000) :
    ((runCheckLimit none [t1, t2, t3, t4, t5, t6]).2.map (fun r => r.allowed) =
        [true, true, true, true, true, false]) ∧
    ((runCheckLimit none [t1, t2, t3, t4, t5, t6]).2.map (fun r => r.remaining) =
        [4, 3, 2, 1, 0, 0]) := by
  constructor <;>
    simp [runCheckLimit, checkLimit, Nat.not_lt.mpr h2, Nat.not_lt.mpr h3,
      Nat.not_lt.mpr h4, Nat.not_lt.mpr h5, Nat.not_lt.mpr h6]

/-- Witness for C3: six calls all at time 0 — the first five are allowed
with remaining 4, 3, 2, 1, 0 and the sixth is blocked. -/
theorem C3_rate_limiter_five_then_blocked_witness :
    ((runCheckLimit none [0, 0, 0, 0, 0, 0]).2.map (fun r => r.allowed) =
        [true, true, true, true, true, false]) ∧
    ((runCheckLimit none [0, 0, 0, 0, 0, 0]).2.map (fun r => r.remaining) =
        [4, 3, 2, 1, 0, 0]) :=
  C3_rate_limiter_five_then_blocked 0 0 0 0 0 0 (by decide) (by decide)
    (by decide) (by decide) (by decide)
